import Mathlib

/-!
# Verification of the ImageViewer ROI editing engine

Shallow embedding of the ROI (region of interest) editing core of the
ImageViewer repository: the geometry primitives and the overlap test
(`imageviewer.py`), the 8-handle interactive resize of `QGraphicsRoiItem`
(`roi.py`), and the scene-level gesture handlers (`_arrow`, `_draw_roi`,
`_pan`, `zoom`, `zoom_fit`, `remove_roi`, `remove_rois`) of `QImageViewer`
(`imageviewer.py`).

Coordinates are embedded as rationals (the Python code uses floats for
scene coordinates; all algorithms here are pure field arithmetic and
comparisons, and every concrete input exercised below is exactly
representable). Qt rectangle semantics (`QRectF`: `x, y, width, height`
with `setLeft/setRight/setTop/setBottom/adjusted` edge arithmetic) are
embedded directly. Visual-only state (pens, cursors, repaints) is not
modelled.
-/

namespace ImageViewer

/-- A scene-space point (`QPointF`). -/
structure Pt where
  x : ℚ
  y : ℚ
deriving DecidableEq, Repr

/-- An axis-aligned rectangle (`QRectF`): origin plus signed extents. -/
structure Rect where
  x : ℚ
  y : ℚ
  w : ℚ
  h : ℚ
deriving DecidableEq, Repr

def Rect.left (r : Rect) : ℚ := r.x

def Rect.top (r : Rect) : ℚ := r.y

def Rect.right (r : Rect) : ℚ := r.x + r.w

def Rect.bottom (r : Rect) : ℚ := r.y + r.h

def Rect.centerX (r : Rect) : ℚ := r.x + r.w / 2

def Rect.centerY (r : Rect) : ℚ := r.y + r.h / 2

/-- `QRectF.setLeft`: moves the left edge, keeping the right edge fixed. -/
def Rect.setLeft (r : Rect) (v : ℚ) : Rect := ⟨v, r.y, r.x + r.w - v, r.h⟩

/-- `QRectF.setTop`: moves the top edge, keeping the bottom edge fixed. -/
def Rect.setTop (r : Rect) (v : ℚ) : Rect := ⟨r.x, v, r.w, r.y + r.h - v⟩

/-- `QRectF.setRight`: moves the right edge, keeping the left edge fixed. -/
def Rect.setRight (r : Rect) (v : ℚ) : Rect := ⟨r.x, r.y, v - r.x, r.h⟩

/-- `QRectF.setBottom`: moves the bottom edge, keeping the top edge fixed. -/
def Rect.setBottom (r : Rect) (v : ℚ) : Rect := ⟨r.x, r.y, r.w, v - r.y⟩

/-- `QRectF.adjusted(dx1, dy1, dx2, dy2)`. -/
def Rect.adjusted (r : Rect) (dx1 dy1 dx2 dy2 : ℚ) : Rect :=
  ⟨r.x + dx1, r.y + dy1, r.w + dx2 - dx1, r.h + dy2 - dy1⟩

/-- Translation of a rectangle by a point offset (mapping a local rect into
scene coordinates through an item position). -/
def Rect.translate (r : Rect) (p : Pt) : Rect := ⟨r.x + p.x, r.y + p.y, r.w, r.h⟩

/-- `QImageViewer.is_overlap` (imageviewer.py, lines 155-163): strict
axis-aligned overlap test. -/
def is_overlap (rect1 rect2 : Rect) : Bool :=
  if rect1.x + rect1.w > rect2.x ∧ rect2.x + rect2.w > rect1.x ∧
      rect1.y + rect1.h > rect2.y ∧ rect2.y + rect2.h > rect1.y then
    true
  else
    false

/-- The eight resize handles of `QGraphicsRoiItem` (roi.py, lines 19-26),
in the dictionary enumeration order of the source. -/
inductive Handle where
  | topLeft
  | topMiddle
  | topRight
  | middleLeft
  | middleRight
  | bottomLeft
  | bottomMiddle
  | bottomRight
deriving DecidableEq, Repr

/-- `RoiType` (roi.py): the two shape kinds. -/
inductive RoiType where
  | rect
  | ellipse
deriving DecidableEq, Repr

/-- `QGraphicsRoiItem.boundingRect` (roi.py, lines 122-127): the item rect
grown by `handleSize + handleSpace` on every side. -/
def boundingRectOf (rect : Rect) (o : ℚ) : Rect :=
  rect.adjusted (-o) (-o) o o

/-- The candidate rectangle computed by the per-handle branches of
`QGraphicsRoiItem.interactive_resize` (roi.py, lines 155-237), before the
sign normalization of lines 239-245.  Arguments: the grabbed handle, the
press position and bounding-rect snapshot recorded by `mousePressEvent`,
the offset `handleSize + handleSpace`, the current item rect, and the
current mouse position. -/
def resizeCandidate (handleSel : Handle) (mousePressPos : Pt) (mousePressRect : Rect)
    (offset : ℚ) (rect0 : Rect) (mouse_pos : Pt) : Rect :=
  let br0 := boundingRectOf rect0 offset
  match handleSel with
  | Handle.topLeft =>
      let to_x := mousePressRect.left + mouse_pos.x - mousePressPos.x
      let to_y := mousePressRect.top + mouse_pos.y - mousePressPos.y
      let br := (br0.setLeft to_x).setTop to_y
      (rect0.setLeft (br.left + offset)).setTop (br.top + offset)
  | Handle.topMiddle =>
      let to_y := mousePressRect.top + mouse_pos.y - mousePressPos.y
      let br := br0.setTop to_y
      rect0.setTop (br.top + offset)
  | Handle.topRight =>
      let to_x := mousePressRect.right + mouse_pos.x - mousePressPos.x
      let to_y := mousePressRect.top + mouse_pos.y - mousePressPos.y
      let br := (br0.setRight to_x).setTop to_y
      (rect0.setRight (br.right - offset)).setTop (br.top + offset)
  | Handle.middleLeft =>
      let to_x := mousePressRect.left + mouse_pos.x - mousePressPos.x
      let br := br0.setLeft to_x
      rect0.setLeft (br.left + offset)
  | Handle.middleRight =>
      let to_x := mousePressRect.right + mouse_pos.x - mousePressPos.x
      let br := br0.setRight to_x
      rect0.setRight (br.right - offset)
  | Handle.bottomLeft =>
      let to_x := mousePressRect.left + mouse_pos.x - mousePressPos.x
      let to_y := mousePressRect.bottom + mouse_pos.y - mousePressPos.y
      let br := (br0.setLeft to_x).setBottom to_y
      (rect0.setLeft (br.left + offset)).setBottom (br.bottom - offset)
  | Handle.bottomMiddle =>
      let to_y := mousePressRect.bottom + mouse_pos.y - mousePressPos.y
      let br := br0.setBottom to_y
      rect0.setBottom (br.bottom - offset)
  | Handle.bottomRight =>
      let to_x := mousePressRect.right + mouse_pos.x - mousePressPos.x
      let to_y := mousePressRect.bottom + mouse_pos.y - mousePressPos.y
      let br := (br0.setRight to_x).setBottom to_y
      (rect0.setRight (br.right - offset)).setBottom (br.bottom - offset)

/-- `QGraphicsRoiItem.interactive_resize` (roi.py, lines 144-246): the
per-handle candidate computation followed by the sign normalization
("handle the case of width or height < 0") that is finally committed via
`setRect`. -/
def interactive_resize (handleSel : Handle) (mousePressPos : Pt) (mousePressRect : Rect)
    (offset : ℚ) (rect0 : Rect) (mouse_pos : Pt) : Rect :=
  let rect := resizeCandidate handleSel mousePressPos mousePressRect offset rect0 mouse_pos
  let width := |rect.w|
  let height := |rect.h|
  let x0 := if rect.w > 0 then rect.x else rect.x - width
  let y0 := if rect.h > 0 then rect.y else rect.y - height
  ⟨x0, y0, width, height⟩

/-- `QRectF.contains(QPointF)` (Qt semantics, used by `handle_at`): a point
is contained if it lies inside or on the edge of the non-null span; a rect
whose width or height collapses to an empty span contains nothing. -/
def Rect.containsPoint (r : Rect) (p : Pt) : Bool :=
  let l := if r.w < 0 then r.x + r.w else r.x
  let rr := if r.w < 0 then r.x else r.x + r.w
  if l = rr then false
  else if p.x < l ∨ p.x > rr then false
  else
    let t := if r.h < 0 then r.y + r.h else r.y
    let b := if r.h < 0 then r.y else r.y + r.h
    if t = b then false
    else if p.y < t ∨ p.y > b then false
    else true

/-- The mutable state of one `QGraphicsRoiItem` (roi.py).  `rect` is the
item-local rectangle, `pos` the item position in the scene (`moveBy`
accumulates into it).  The six `Bool` flags are the ones toggled together
by `set_mutable`.  The handle dictionary is derived on demand from
`rect`/`handleSize`/`handleSpace` (the source keeps it in sync by calling
`update_handles_pos` after every geometry change).  Pens, cursors and
painting are not modelled. -/
structure RoiItem where
  roi_type : RoiType
  rect : Rect
  pos : Pt
  selected : Bool
  showHandle : Bool
  handleSelected : Option Handle
  mousePressPos : Option Pt
  mousePressRect : Option Rect
  handleSize : ℚ
  handleSpace : ℚ
  acceptHoverEvents : Bool
  acceptedMouseButtons : Bool
  itemIsMovable : Bool
  itemIsSelectable : Bool
  itemSendsGeometryChanges : Bool
  itemIsFocusable : Bool
deriving DecidableEq, Repr

/-- `QGraphicsRoiItem.set_mutable` (roi.py, lines 277-288): toggles hover
acceptance, mouse-button acceptance and the four item flags, nothing else. -/
def set_mutable (status : Bool) (item : RoiItem) : RoiItem :=
  { item with
    acceptHoverEvents := status
    acceptedMouseButtons := status
    itemIsMovable := status
    itemIsSelectable := status
    itemSendsGeometryChanges := status
    itemIsFocusable := status }

/-- `QGraphicsRoiItem.__init__` (roi.py, lines 42-54): fresh item with the
class-level `handleSize = 0`, `handleSpace = 4`, no grabbed handle, no
press snapshot, then `set_mutable(True)`. -/
def mkRoiItem (t : RoiType) (x y w h : ℚ) : RoiItem :=
  set_mutable true
    { roi_type := t
      rect := ⟨x, y, w, h⟩
      pos := ⟨0, 0⟩
      selected := false
      showHandle := false
      handleSelected := none
      mousePressPos := none
      mousePressRect := none
      handleSize := 0
      handleSpace := 4
      acceptHoverEvents := false
      acceptedMouseButtons := false
      itemIsMovable := false
      itemIsSelectable := false
      itemSendsGeometryChanges := false
      itemIsFocusable := false }

/-- `QGraphicsRoiItem.boundingRect` of an item. -/
def boundingRect (item : RoiItem) : Rect :=
  boundingRectOf item.rect (item.handleSize + item.handleSpace)

/-- `QGraphicsItem.sceneBoundingRect`: the overridden `boundingRect`
mapped into scene coordinates through the item position. -/
def sceneBoundingRect (item : RoiItem) : Rect :=
  (boundingRect item).translate item.pos

/-- The shape's persisted bounds in scene coordinates: the item rect
translated by the item position (no handle margin). -/
def itemSceneRect (item : RoiItem) : Rect :=
  item.rect.translate item.pos

/-- `QGraphicsItem.moveBy(dx, dy)`: translates the item position. -/
def moveBy (item : RoiItem) (dx dy : ℚ) : RoiItem :=
  { item with pos := ⟨item.pos.x + dx, item.pos.y + dy⟩ }

/-- `QGraphicsItem.setSelected`. -/
def setSelected (status : Bool) (item : RoiItem) : RoiItem :=
  { item with selected := status }

/-- Modelled from the spec: `setShowHandles(bool)` is described as a pure
state setter on the shape ("`setSelected(bool)`, `setShowHandles(bool)`,
`setMutable(bool)`: pure state setters"); `imageviewer.py` calls
`roi.set_show_handle(...)` throughout `_arrow`, but the method body is
absent from `roi.py` in the sources. -/
def set_show_handle (status : Bool) (item : RoiItem) : RoiItem :=
  { item with showHandle := status }

/-- `QGraphicsRoiItem.update_handles_pos` (roi.py, lines 129-142): the
handle rectangle for each handle id, derived from the bounding rect and
`handleSize`. -/
def handleRect (item : RoiItem) (h : Handle) : Rect :=
  let s := item.handleSize
  let b := boundingRect item
  match h with
  | Handle.topLeft => ⟨b.left, b.top, s, s⟩
  | Handle.topMiddle => ⟨b.centerX - s / 2, b.top, s, s⟩
  | Handle.topRight => ⟨b.right - s, b.top, s, s⟩
  | Handle.middleLeft => ⟨b.left, b.centerY - s / 2, s, s⟩
  | Handle.middleRight => ⟨b.right - s, b.centerY - s / 2, s, s⟩
  | Handle.bottomLeft => ⟨b.left, b.bottom - s, s, s⟩
  | Handle.bottomMiddle => ⟨b.centerX - s / 2, b.bottom - s, s, s⟩
  | Handle.bottomRight => ⟨b.right - s, b.bottom - s, s, s⟩

/-- The dictionary enumeration order of the handle dict (insertion order
of roi.py, lines 135-142). -/
def handleOrder : List Handle :=
  [Handle.topLeft, Handle.topMiddle, Handle.topRight, Handle.middleLeft,
    Handle.middleRight, Handle.bottomLeft, Handle.bottomMiddle, Handle.bottomRight]

/-- `QGraphicsRoiItem.handle_at` (roi.py, lines 67-74): first handle in
dictionary order whose rect contains the point. -/
def handle_at (item : RoiItem) (p : Pt) : Option Handle :=
  handleOrder.find? (fun h => (handleRect item h).containsPoint p)

/-- `QGraphicsRoiItem.mousePressEvent` (roi.py, lines 93-101): records the
grabbed handle; if one was grabbed (all handle ids are truthy), snapshots
the press position and the bounding rect. -/
def mousePressEvent (item : RoiItem) (p : Pt) : RoiItem :=
  match handle_at item p with
  | some h =>
      { item with
        handleSelected := some h
        mousePressPos := some p
        mousePressRect := some (boundingRect item) }
  | none => { item with handleSelected := none }

/-- `QGraphicsRoiItem.mouseReleaseEvent` (roi.py, lines 112-120): clears
the grabbed handle and both press snapshots. -/
def mouseReleaseEvent (item : RoiItem) : RoiItem :=
  { item with
    handleSelected := none
    mousePressPos := none
    mousePressRect := none }

/-- `self._panning` (imageviewer.py, line 39). -/
structure PanRecord where
  flag : Bool
  x : ℚ
  y : ℚ
deriving DecidableEq, Repr

/-- `self._drawing` (imageviewer.py, line 42). -/
structure DrawRecord where
  flag : Bool
  x : ℚ
  y : ℚ
deriving DecidableEq, Repr

/-- `self._selecting` (imageviewer.py, line 45); `rectInScene` tracks
whether the transient rubber-band item is currently added to the scene. -/
structure SelectRecord where
  flag : Bool
  x : ℚ
  y : ℚ
  rect : Rect
  rectInScene : Bool
deriving DecidableEq, Repr

/-- The scene-level state of `QImageViewer` (imageviewer.py).  The Python
`set` `self._rois` is embedded as a list (the scene owns the same items;
Python iterates the set in an unspecified order, which only matters for
the first-hit selection inside the Control-press branch).  `drawingRoi`
embeds the module-global `drawing_roi` as the index of the shape being
drawn.  The view transform (`QGraphicsView` matrix) is embedded as a
scale factor plus a translation component. -/
structure ViewerState where
  rois : List RoiItem
  duplicated : List RoiItem
  panning : PanRecord
  drawing : DrawRecord
  selecting : SelectRecord
  drawingRoi : Option ℕ
  pixMapPos : Pt
  textGroupPos : Pt
  viewScale : ℚ
  viewTranslate : Pt
deriving DecidableEq, Repr

inductive EventKind where
  | press
  | move
  | release
deriving DecidableEq, Repr

/-- A `QGraphicsSceneMouseEvent`, reduced to its kind and scene position. -/
structure SceneEvent where
  kind : EventKind
  pos : Pt
deriving DecidableEq, Repr

/-- The keyboard modifier snapshot passed to the tool handlers. -/
inductive Modifier where
  | noModifier
  | control
  | alt
deriving DecidableEq, Repr

/-- `roi.setSelected(False); roi.set_show_handle(False)` as both gesture
paths of `_arrow` apply it. -/
def deselectHide (item : RoiItem) : RoiItem :=
  set_show_handle false (setSelected false item)

/-- The loop of `_arrow`'s Control-press branch (imageviewer.py, lines
207-211): select the first shape whose scene bounding rect overlaps the
zero-size rect at the press point, then stop. -/
def selectFirstHit (p : Pt) : List RoiItem → List RoiItem
  | [] => []
  | r :: rs =>
      if is_overlap (sceneBoundingRect r) ⟨p.x, p.y, 0, 0⟩ then
        setSelected true r :: rs
      else
        r :: selectFirstHit p rs

/-- `QImageViewer._duplicate_roi` (imageviewer.py, lines 314-329): for
each selected shape, construct a fresh `QGraphicsRoiItem` anchored at the
`sceneBoundingRect` origin with the original item-rect extents. -/
def duplicate_roi (rois : List RoiItem) : List RoiItem :=
  (rois.filter (fun r => r.selected)).map (fun roi =>
    mkRoiItem roi.roi_type (sceneBoundingRect roi).x (sceneBoundingRect roi).y
      roi.rect.w roi.rect.h)

/-- `QImageViewer._arrow` (imageviewer.py, lines 199-287): selection,
rubber-band and duplication handling for the Arrow tool. -/
def arrowTool (ev : SceneEvent) (modifier : Modifier) (s : ViewerState) : ViewerState :=
  match ev.kind with
  | EventKind.press =>
      let pos := ev.pos
      if modifier = Modifier.control then
        let rois1 :=
          if s.rois.any (fun r => r.selected) then s.rois else selectFirstHit pos s.rois
        let dups := duplicate_roi rois1
        { s with
          rois := rois1.map deselectHide
          duplicated := dups.map (fun r => set_show_handle false (setSelected true r)) }
      else
        let isInRoi :=
          s.rois.any (fun roi => is_overlap (sceneBoundingRect roi) ⟨pos.x, pos.y, 0, 0⟩)
        if isInRoi then s
        else
          { s with
            selecting :=
              { flag := true, x := pos.x, y := pos.y
                rect := ⟨pos.x, pos.y, 0, 0⟩, rectInScene := true } }
  | EventKind.move =>
      if s.selecting.flag then
        let ep := ev.pos
        let x0 := min s.selecting.x ep.x
        let y0 := min s.selecting.y ep.y
        let width := |s.selecting.x - ep.x|
        let height := |s.selecting.y - ep.y|
        let selRect : Rect := ⟨x0, y0, width, height⟩
        { s with
          selecting := { s.selecting with rect := selRect }
          rois := s.rois.map (fun roi =>
            if is_overlap (sceneBoundingRect roi) selRect then
              set_show_handle true (setSelected true roi)
            else
              set_show_handle false (setSelected false roi)) }
      else s
  | EventKind.release =>
      let ep := ev.pos
      let s1 :=
        if s.selecting.flag then
          let s' := { s with selecting := { s.selecting with rectInScene := false } }
          if s.selecting.x = ep.x ∧ s.selecting.y = ep.y then
            { s' with rois := s'.rois.map deselectHide }
          else s'
        else s
      { s1 with
        selecting := { s1.selecting with flag := false }
        rois := s1.rois ++ s1.duplicated.map deselectHide
        duplicated := [] }

/-- Modelled from the spec: between the Control-press and the release of a
duplicate gesture, "the user is now dragging the copies" — the toolkit's
`ItemIsMovable` machinery translates every selected item by the drag
delta.  This item-level drag lives in the GUI framework, not in the
sources; only its selected-items-move-together effect is modelled. -/
def dragSelectedBy (dx dy : ℚ) (s : ViewerState) : ViewerState :=
  { s with
    rois := s.rois.map (fun r => if r.selected then moveBy r dx dy else r)
    duplicated := s.duplicated.map (fun r => if r.selected then moveBy r dx dy else r) }

/-- Pointwise list update, used to embed the mutation of the shape held by
the module-global `drawing_roi`. -/
def updateAt : ℕ → (RoiItem → RoiItem) → List RoiItem → List RoiItem
  | _, _, [] => []
  | 0, f, r :: rs => f r :: rs
  | n + 1, f, r :: rs => r :: updateAt n f rs

/-- `QImageViewer.add_roi` (imageviewer.py, lines 460-466): construct the
item, make it immutable, add it to the scene and the live set.  The pen
color is visual-only and not modelled. -/
def add_roi (t : RoiType) (x y w h : ℚ) (s : ViewerState) : ViewerState :=
  let roi := set_mutable false (mkRoiItem t x y w h)
  { s with rois := s.rois ++ [roi] }

/-- `QImageViewer._draw_roi` (imageviewer.py, lines 289-312): the draw
gesture for a given shape kind. -/
def draw_roi (t : RoiType) (ev : SceneEvent) (s : ViewerState) : ViewerState :=
  match ev.kind with
  | EventKind.press =>
      let pos := ev.pos
      let s1 := add_roi t pos.x pos.y 0 0 s
      { s1 with
        drawingRoi := some s.rois.length
        drawing := { flag := true, x := pos.x, y := pos.y } }
  | EventKind.move =>
      if s.drawing.flag then
        let pos := ev.pos
        let x0 := if pos.x > s.drawing.x then s.drawing.x else pos.x
        let y0 := if pos.y > s.drawing.y then s.drawing.y else pos.y
        let width := |pos.x - s.drawing.x|
        let height := |pos.y - s.drawing.y|
        match s.drawingRoi with
        | some i =>
            { s with rois := updateAt i (fun r => { r with rect := ⟨x0, y0, width, height⟩ }) s.rois }
        | none => s
      else s
  | EventKind.release =>
      { s with drawing := { s.drawing with flag := false } }

/-- `QImageViewer._pan` (imageviewer.py, lines 331-357): the pan gesture.
On move while active, the same delta is applied to the pixmap item, the
text group and every shape, then the recorded point is updated. -/
def panTool (ev : SceneEvent) (s : ViewerState) : ViewerState :=
  match ev.kind with
  | EventKind.press =>
      { s with panning := { flag := true, x := ev.pos.x, y := ev.pos.y } }
  | EventKind.move =>
      if s.panning.flag then
        let dx := ev.pos.x - s.panning.x
        let dy := ev.pos.y - s.panning.y
        { s with
          pixMapPos := ⟨s.pixMapPos.x + dx, s.pixMapPos.y + dy⟩
          textGroupPos := ⟨s.textGroupPos.x + dx, s.textGroupPos.y + dy⟩
          rois := s.rois.map (fun r => moveBy r dx dy)
          panning := { flag := s.panning.flag, x := ev.pos.x, y := ev.pos.y } }
      else s
  | EventKind.release =>
      { s with panning := { flag := false, x := 0, y := 0 } }

/-- `QImageViewer.zoom` (imageviewer.py, lines 359-370): on release,
multiply the view scale by 1.2 (or its inverse with the Alt modifier).
The scroll recentering of `centerOn` acts on the viewport scrollbars, not
on the view matrix, and is not modelled. -/
def zoom (ev : SceneEvent) (modifiers : Modifier) (s : ViewerState) : ViewerState :=
  match ev.kind with
  | EventKind.release =>
      let factor : ℚ := if modifiers = Modifier.alt then 5 / 6 else 6 / 5
      { s with viewScale := s.viewScale * factor }
  | _ => s

/-- `QImageViewer.zoom_fit` (imageviewer.py, lines 372-376):
`view.resetMatrix()` restores the identity view transform (scale 1,
zero translation) and both layer anchors are re-set to the origin. -/
def zoom_fit (s : ViewerState) : ViewerState :=
  { s with
    viewScale := 1
    viewTranslate := ⟨0, 0⟩
    pixMapPos := ⟨0, 0⟩
    textGroupPos := ⟨0, 0⟩ }

/-- The `self._tool_function` dictionary (imageviewer.py, lines 51-56):
string-keyed handler lookup; an unknown key raises `KeyError` at the
lookup site. -/
def tool_function (name : String) :
    Option (SceneEvent → Modifier → ViewerState → ViewerState) :=
  if name = "Arrow" then some arrowTool
  else if name = "Rect" then some (fun ev _ s => draw_roi RoiType.rect ev s)
  else if name = "Ellipse" then some (fun ev _ s => draw_roi RoiType.ellipse ev s)
  else if name = "Zoom" then some zoom
  else if name = "Fit" then some (fun _ _ s => zoom_fit s)
  else if name = "Pan" then some (fun ev _ s => panTool ev s)
  else none

/-- The raw dictionary dispatch
`self._tool_function[self._current_tool](event, modifiers)`: a `KeyError`
escapes when the current tool name is not a key. -/
def dispatchTool (current_tool : String) (ev : SceneEvent) (modifiers : Modifier)
    (s : ViewerState) : Except String ViewerState :=
  match tool_function current_tool with
  | some f => Except.ok (f ev modifiers s)
  | none => Except.error "KeyError"

/-- `QImageViewer.eventFilter` (imageviewer.py, lines 145-153): the
dispatch is wrapped in `try ... except KeyError: pass`, so a failed
lookup is absorbed and the state is left unchanged. -/
def eventFilter (current_tool : String) (ev : SceneEvent) (modifiers : Modifier)
    (s : ViewerState) : Except String ViewerState :=
  match dispatchTool current_tool ev modifiers s with
  | Except.ok s' => Except.ok s'
  | Except.error _ => Except.ok s

/-- `QImageViewer.remove_roi` (imageviewer.py, lines 468-470):
`scene.removeItem` (a warning-only no-op when absent) followed by
`self._rois.remove(roi)` — the Python `set.remove`, which raises
`KeyError` when the element is absent. -/
def remove_roi (s : ViewerState) (roi : RoiItem) : Except String ViewerState :=
  if roi ∈ s.rois then Except.ok { s with rois := s.rois.erase roi }
  else Except.error "KeyError"

/-- `QImageViewer.remove_rois` (imageviewer.py, lines 472-475): removes
each item from the scene, then takes the set difference
`self._rois - rois`. -/
def remove_rois (s : ViewerState) (rois : List RoiItem) : ViewerState :=
  { s with rois := s.rois.filter (fun r => !rois.contains r) }

/-- A quiescent viewer: no shapes, no active gesture, identity view
transform (test fixture for concrete evaluations). -/
def baseViewer : ViewerState :=
  { rois := []
    duplicated := []
    panning := { flag := false, x := 0, y := 0 }
    drawing := { flag := false, x := 0, y := 0 }
    selecting := { flag := false, x := 0, y := 0, rect := ⟨0, 0, 0, 0⟩, rectInScene := false }
    drawingRoi := none
    pixMapPos := ⟨0, 0⟩
    textGroupPos := ⟨0, 0⟩
    viewScale := 1
    viewTranslate := ⟨0, 0⟩ }

/-- The full duplicate gesture: Control-press, item drag by a delta,
release. -/
def duplicateGesture (pressPos : Pt) (dx dy : ℚ) (releasePos : Pt)
    (s : ViewerState) : ViewerState :=
  arrowTool ⟨EventKind.release, releasePos⟩ Modifier.control
    (dragSelectedBy dx dy (arrowTool ⟨EventKind.press, pressPos⟩ Modifier.control s))

/-- Componentwise point addition (delta composition). -/
def ptAdd (a b : Pt) : Pt := ⟨a.x + b.x, a.y + b.y⟩

/-- The per-step deltas of a pan gesture: each move point against the
previously recorded point, starting from the press anchor. -/
def panDeltas : Pt → List Pt → List Pt
  | _, [] => []
  | p0, p :: ps => ⟨p.x - p0.x, p.y - p0.y⟩ :: panDeltas p ps

/-- Sum of a list of deltas. -/
def sumPt (l : List Pt) : Pt := l.foldr ptAdd ⟨0, 0⟩

/-- The last point of a move sequence (the anchor if there is none). -/
def lastPt (p0 : Pt) : List Pt → Pt
  | [] => p0
  | p :: ps => lastPt p ps

/-- A sequence of pan move events folded over the state. -/
def panMoves (ps : List Pt) (s : ViewerState) : ViewerState :=
  ps.foldl (fun st pnt => panTool ⟨EventKind.move, pnt⟩ st) s

/-- A sequence of draw move events folded over the state. -/
def drawMoves (t : RoiType) (ms : List Pt) (s : ViewerState) : ViewerState :=
  ms.foldl (fun st pnt => draw_roi t ⟨EventKind.move, pnt⟩ st) s

/-! ## Test fixtures -/

/-- A fresh rectangular shape, used as a concrete removal target. -/
def c4Roi : RoiItem := mkRoiItem RoiType.rect 0 0 1 1

/-- A shape with bounds `(0,0,10,10)`, selected (the precondition of the
duplicate gesture). -/
def c3Roi : RoiItem := setSelected true (mkRoiItem RoiType.rect 0 0 10 10)

/-- A shape with bounds `(0,0,10,10)` in the middle of a resize: the
BottomRight handle is grabbed with press snapshots recorded, exactly as
`mousePressEvent` leaves them. -/
def c8Item : RoiItem :=
  { mkRoiItem RoiType.rect 0 0 10 10 with
    handleSelected := some Handle.bottomRight
    mousePressPos := some ⟨10, 10⟩
    mousePressRect := some (boundingRectOf ⟨0, 0, 10, 10⟩ 4) }

/-! ## Helper lemmas -/

lemma is_overlap_iff (a b : Rect) :
    is_overlap a b = true ↔
      (a.x + a.w > b.x ∧ b.x + b.w > a.x ∧ a.y + a.h > b.y ∧ b.y + b.h > a.y) := by
  unfold is_overlap
  split_ifs with hc
  · simp [hc]
  · simp [hc]

lemma updateAt_length_append (l : List RoiItem) (a : RoiItem) (f : RoiItem → RoiItem) :
    updateAt l.length f (l ++ [a]) = l ++ [f a] := by
  induction l with
  | nil => rfl
  | cons b tl ih => simp [updateAt, ih]

lemma if_gt_eq_min (a b : ℚ) : (if b > a then a else b) = min a b := by
  split_ifs with hab
  · exact (min_eq_left hab.le).symm
  · exact (min_eq_right (not_lt.mp hab)).symm

lemma moveBy_zero (r : RoiItem) : moveBy r 0 0 = r := by
  simp [moveBy]

lemma moveBy_moveBy (r : RoiItem) (a b c d : ℚ) :
    moveBy (moveBy r a b) c d = moveBy r (a + c) (b + d) := by
  simp [moveBy, add_assoc]

lemma ptAdd_assoc (a b c : Pt) : ptAdd (ptAdd a b) c = ptAdd a (ptAdd b c) := by
  simp [ptAdd, add_assoc]

lemma draw_moves_char (t : RoiType) (ms : List Pt) :
    ∀ (s : ViewerState) (l : List RoiItem) (r : RoiItem) (px py : ℚ),
      s.rois = l ++ [r] → s.drawingRoi = some l.length →
      s.drawing = ⟨true, px, py⟩ →
      ∃ r' : RoiItem,
        (drawMoves t ms s).rois = l ++ [r'] ∧ r'.pos = r.pos ∧
        (drawMoves t ms s).drawingRoi = some l.length ∧
        (drawMoves t ms s).drawing = ⟨true, px, py⟩ := by
  induction ms with
  | nil =>
      intro s l r px py hrois hidx hdraw
      exact ⟨r, hrois, rfl, hidx, hdraw⟩
  | cons m rest ih =>
      intro s l r px py hrois hidx hdraw
      have hflag : s.drawing.flag = true := by rw [hdraw]
      have hx : s.drawing.x = px := by rw [hdraw]
      have hy : s.drawing.y = py := by rw [hdraw]
      have hstep : draw_roi t ⟨EventKind.move, m⟩ s =
          { s with rois := l ++ [{ r with rect :=
              ⟨if m.x > px then px else m.x, if m.y > py then py else m.y,
                |m.x - px|, |m.y - py|⟩ }] } := by
        simp [draw_roi, hflag, hx, hy, hidx, hrois, updateAt_length_append]
      obtain ⟨r', hr1, hr2, hr3, hr4⟩ :=
        ih (draw_roi t ⟨EventKind.move, m⟩ s) l
          { r with rect :=
              ⟨if m.x > px then px else m.x, if m.y > py then py else m.y,
                |m.x - px|, |m.y - py|⟩ } px py
          (by rw [hstep]) (by rw [hstep]; exact hidx) (by rw [hstep]; exact hdraw)
      exact ⟨r', hr1, hr2, hr3, hr4⟩

lemma pan_moves_char (ps : List Pt) : ∀ (p0 : Pt) (s0 : ViewerState),
    s0.panning = ⟨true, p0.x, p0.y⟩ →
    (panMoves ps s0).rois =
        s0.rois.map (fun r =>
          moveBy r (sumPt (panDeltas p0 ps)).x (sumPt (panDeltas p0 ps)).y) ∧
    (panMoves ps s0).pixMapPos = ptAdd s0.pixMapPos (sumPt (panDeltas p0 ps)) ∧
    (panMoves ps s0).textGroupPos = ptAdd s0.textGroupPos (sumPt (panDeltas p0 ps)) ∧
    (panMoves ps s0).panning = ⟨true, (lastPt p0 ps).x, (lastPt p0 ps).y⟩ := by
  induction ps with
  | nil =>
      intro p0 s0 h
      refine ⟨?_, ?_, ?_, ?_⟩
      · simp [panMoves, sumPt, panDeltas, moveBy_zero]
      · simp [panMoves, sumPt, panDeltas, ptAdd]
      · simp [panMoves, sumPt, panDeltas, ptAdd]
      · simpa [panMoves, lastPt] using h
  | cons pnt ps ih =>
      intro p0 s0 h
      have hflag : s0.panning.flag = true := by rw [h]
      have hx : s0.panning.x = p0.x := by rw [h]
      have hy : s0.panning.y = p0.y := by rw [h]
      have hstep : panTool ⟨EventKind.move, pnt⟩ s0 =
          { s0 with
            pixMapPos := ptAdd s0.pixMapPos ⟨pnt.x - p0.x, pnt.y - p0.y⟩
            textGroupPos := ptAdd s0.textGroupPos ⟨pnt.x - p0.x, pnt.y - p0.y⟩
            rois := s0.rois.map (fun r => moveBy r (pnt.x - p0.x) (pnt.y - p0.y))
            panning := ⟨true, pnt.x, pnt.y⟩ } := by
        simp [panTool, hflag, hx, hy, ptAdd]
      have hfold : panMoves (pnt :: ps) s0 = panMoves ps (panTool ⟨EventKind.move, pnt⟩ s0) := rfl
      obtain ⟨ihr, ihp, iht, ihpan⟩ :=
        ih pnt (panTool ⟨EventKind.move, pnt⟩ s0) (by rw [hstep])
      have hsum : sumPt (panDeltas p0 (pnt :: ps)) =
          ptAdd ⟨pnt.x - p0.x, pnt.y - p0.y⟩ (sumPt (panDeltas pnt ps)) := rfl
      refine ⟨?_, ?_, ?_, ?_⟩
      · rw [hfold, ihr, hstep]
        simp only [List.map_map, hsum]
        apply List.map_congr_left
        intro r _
        simp [Function.comp, moveBy_moveBy, ptAdd]
      · rw [hfold, ihp, hstep]
        simp only [hsum]
        rw [ptAdd_assoc]
      · rw [hfold, iht, hstep]
        simp only [hsum]
        rw [ptAdd_assoc]
      · rw [hfold, ihpan]
        rfl

/-! ## Claims -/

/-- Claim C1: every rectangle committed by `interactive_resize` is the
sign-normalization of the per-handle candidate rectangle — width and
height are the candidate's absolute extents and the origin is flipped
whenever the candidate extent is non-positive; in particular dragging the
BottomRight handle of a shape with bounds `(0,0,10,10)` (press at the
corner `(10,10)`, bounding-rect snapshot taken with the invariant offset
`handleSize + handleSpace = 4`) to scene point `(-5,-5)` commits bounds
`(-5,-5,5,5)`. -/
theorem c1_resize_normalized (h : Handle) (pp : Pt) (pr : Rect) (o : ℚ) (r0 : Rect) (mp : Pt) :
    ((interactive_resize h pp pr o r0 mp).w = |(resizeCandidate h pp pr o r0 mp).w| ∧
      (interactive_resize h pp pr o r0 mp).h = |(resizeCandidate h pp pr o r0 mp).h| ∧
      (interactive_resize h pp pr o r0 mp).x =
        (if (resizeCandidate h pp pr o r0 mp).w > 0 then (resizeCandidate h pp pr o r0 mp).x
          else (resizeCandidate h pp pr o r0 mp).x - |(resizeCandidate h pp pr o r0 mp).w|) ∧
      (interactive_resize h pp pr o r0 mp).y =
        (if (resizeCandidate h pp pr o r0 mp).h > 0 then (resizeCandidate h pp pr o r0 mp).y
          else (resizeCandidate h pp pr o r0 mp).y - |(resizeCandidate h pp pr o r0 mp).h|)) ∧
    interactive_resize Handle.bottomRight ⟨10, 10⟩ (boundingRectOf ⟨0, 0, 10, 10⟩ 4) 4
        ⟨0, 0, 10, 10⟩ ⟨-5, -5⟩ = ⟨-5, -5, 5, 5⟩ := by
  refine ⟨⟨rfl, rfl, rfl, rfl⟩, ?_⟩
  norm_num [interactive_resize, resizeCandidate, boundingRectOf, Rect.adjusted, Rect.setRight,
    Rect.setBottom, Rect.setLeft, Rect.setTop, Rect.left, Rect.top, Rect.right, Rect.bottom]

/-- Claim C2: `is_overlap` holds exactly when all four strict inequalities
of the half-open overlap rule hold; hence it is symmetric, reflexive on
rects with positive extents, and false on rects sharing only a boundary
edge such as `(0,0,10,10)` and `(10,0,10,10)`. -/
theorem c2_overlap_spec (a b : Rect) :
    (is_overlap a b = true ↔
      (a.x + a.w > b.x ∧ b.x + b.w > a.x ∧ a.y + a.h > b.y ∧ b.y + b.h > a.y)) ∧
    is_overlap a b = is_overlap b a ∧
    (0 < a.w → 0 < a.h → is_overlap a a = true) ∧
    is_overlap ⟨0, 0, 10, 10⟩ ⟨10, 0, 10, 10⟩ = false := by
  refine ⟨is_overlap_iff a b, ?_, ?_, by norm_num [is_overlap]⟩
  · by_cases hP : (a.x + a.w > b.x ∧ b.x + b.w > a.x ∧ a.y + a.h > b.y ∧ b.y + b.h > a.y)
    · have h1 : is_overlap a b = true := (is_overlap_iff a b).mpr hP
      have h2 : is_overlap b a = true :=
        (is_overlap_iff b a).mpr ⟨hP.2.1, hP.1, hP.2.2.2, hP.2.2.1⟩
      rw [h1, h2]
    · have h1 : is_overlap a b = false := by
        rw [Bool.eq_false_iff]
        intro hc
        exact hP ((is_overlap_iff a b).mp hc)
      have h2 : is_overlap b a = false := by
        rw [Bool.eq_false_iff]
        intro hc
        obtain ⟨k1, k2, k3, k4⟩ := (is_overlap_iff b a).mp hc
        exact hP ⟨k2, k1, k4, k3⟩
      rw [h1, h2]
  · intro hw hh
    rw [is_overlap_iff]
    refine ⟨by linarith, by linarith, by linarith, by linarith⟩

/-- Witness for C2: the reflexivity conjunct applied to the concrete rect
`(0,0,5,5)`. -/
theorem c2_overlap_spec_witness :
    is_overlap ⟨0, 0, 5, 5⟩ ⟨0, 0, 5, 5⟩ = true :=
  (c2_overlap_spec ⟨0, 0, 5, 5⟩ ⟨0, 0, 5, 5⟩).2.2.1 (by norm_num) (by norm_num)

/-- Counterexample to C4 as stated: removing a shape, then removing the
same shape again, raises `KeyError` on the second call (`set.remove` on an
absent element), instead of being an idempotent no-op. -/
theorem c4_counterexample :
    remove_roi { baseViewer with rois := [c4Roi] } c4Roi = Except.ok baseViewer ∧
    remove_roi baseViewer c4Roi = Except.error "KeyError" := by
  constructor <;> rfl

/-- Claim C4 as amended: `remove_rois` is an idempotent no-op on absent
shapes (set difference), but `remove_roi` on a shape outside the live set
raises `KeyError` (Python `set.remove`); on a present shape it removes
it. -/
theorem c4_remove_semantics (s : ViewerState) (r : RoiItem) (rs : List RoiItem) :
    (r ∉ s.rois → remove_roi s r = Except.error "KeyError") ∧
    (r ∈ s.rois → remove_roi s r = Except.ok { s with rois := s.rois.erase r }) ∧
    remove_rois (remove_rois s rs) rs = remove_rois s rs ∧
    ((∀ x ∈ rs, x ∉ s.rois) → remove_rois s rs = s) := by
  refine ⟨?_, ?_, ?_, ?_⟩
  · intro hr
    simp [remove_roi, hr]
  · intro hr
    simp [remove_roi, hr]
  · simp only [remove_rois, List.filter_filter]
    congr 1
    apply List.filter_congr
    intro a _
    simp
  · intro hd
    have hfe : s.rois.filter (fun r => !rs.contains r) = s.rois := by
      apply List.filter_eq_self.mpr
      intro a ha
      rw [Bool.not_eq_true']
      rw [Bool.eq_false_iff]
      intro hc
      have hmem : a ∈ rs := by simpa using hc
      exact hd a hmem ha
    unfold remove_rois
    rw [hfe]

/-- Witness for C4 (amended): the absent-shape branch and the
disjoint-set branch at concrete inputs. -/
theorem c4_remove_semantics_witness :
    remove_roi baseViewer c4Roi = Except.error "KeyError" ∧
    remove_rois baseViewer [c4Roi] = baseViewer :=
  ⟨(c4_remove_semantics baseViewer c4Roi []).1 (by decide),
    (c4_remove_semantics baseViewer c4Roi [c4Roi]).2.2.2 (by decide)⟩

/-- Counterexample to C7 as stated: dispatching an event with the
unrecognized tool name "Bogus" returns normally with the state unchanged
— the `KeyError` is caught by `except KeyError: pass` — rather than being
a fatal assertion-style failure. -/
theorem c7_counterexample :
    eventFilter "Bogus" ⟨EventKind.press, ⟨0, 0⟩⟩ Modifier.noModifier baseViewer =
      Except.ok baseViewer := by
  rfl

/-- Claim C7 as amended: an event dispatched under an unrecognized tool
name makes the raw dictionary lookup raise `KeyError`, but `eventFilter`
catches it and silently leaves the state unchanged — a runtime-absorbed
condition, not a fatal assertion. -/
theorem c7_unknown_tool (tool : String) (ev : SceneEvent) (m : Modifier) (s : ViewerState)
    (h : tool ∉ ["Arrow", "Rect", "Ellipse", "Zoom", "Fit", "Pan"]) :
    dispatchTool tool ev m s = Except.error "KeyError" ∧
    eventFilter tool ev m s = Except.ok s := by
  simp only [List.mem_cons, List.not_mem_nil, or_false] at h
  push_neg at h
  obtain ⟨h1, h2, h3, h4, h5, h6⟩ := h
  have ht : tool_function tool = none := by
    simp [tool_function, h1, h2, h3, h4, h5, h6]
  exact ⟨by simp [dispatchTool, ht], by simp [eventFilter, dispatchTool, ht]⟩

/-- Witness for C7 (amended): the unknown tool name "Bogus" at a concrete
event and state. -/
theorem c7_unknown_tool_witness :
    dispatchTool "Bogus" ⟨EventKind.move, ⟨1, 2⟩⟩ Modifier.control baseViewer =
      Except.error "KeyError" ∧
    eventFilter "Bogus" ⟨EventKind.move, ⟨1, 2⟩⟩ Modifier.control baseViewer =
      Except.ok baseViewer :=
  c7_unknown_tool "Bogus" ⟨EventKind.move, ⟨1, 2⟩⟩ Modifier.control baseViewer (by decide)

/-- Counterexample to C8 as stated: `set_mutable false` on a shape whose
BottomRight handle is mid-resize leaves the grabbed handle and both press
snapshots in place — they are not cleared. -/
theorem c8_counterexample :
    (set_mutable false c8Item).handleSelected = some Handle.bottomRight ∧
    (set_mutable false c8Item).mousePressPos = some ⟨10, 10⟩ ∧
    (set_mutable false c8Item).mousePressRect ≠ none := by
  exact ⟨rfl, rfl, by decide⟩

/-- Claim C8 as amended: `set_mutable false` only clears the six
interaction-acceptance flags; the in-progress resize records
(`handleSelected`, `mousePressPos`, `mousePressRect`) are preserved
untouched, and are cleared only by `mouseReleaseEvent`. -/
theorem c8_set_mutable_state (item : RoiItem) :
    ((set_mutable false item).handleSelected = item.handleSelected ∧
      (set_mutable false item).mousePressPos = item.mousePressPos ∧
      (set_mutable false item).mousePressRect = item.mousePressRect) ∧
    ((set_mutable false item).acceptHoverEvents = false ∧
      (set_mutable false item).acceptedMouseButtons = false ∧
      (set_mutable false item).itemIsMovable = false ∧
      (set_mutable false item).itemIsSelectable = false ∧
      (set_mutable false item).itemSendsGeometryChanges = false ∧
      (set_mutable false item).itemIsFocusable = false) ∧
    ((mouseReleaseEvent item).handleSelected = none ∧
      (mouseReleaseEvent item).mousePressPos = none ∧
      (mouseReleaseEvent item).mousePressRect = none) :=
  ⟨⟨rfl, rfl, rfl⟩, ⟨rfl, rfl, rfl, rfl, rfl, rfl⟩, ⟨rfl, rfl, rfl⟩⟩

/-- Claim C5: while a pan gesture is active, each move event applies the
identical delta (current point minus the recorded point) via `moveBy` to
every live shape, the pixmap item and the text layer, then records the
current point; over any sequence of move events the cumulative
translation of every layer equals the sum of the per-step deltas; and a
release clears the transient pan record. -/
theorem c5_pan_gesture (x0 y0 : ℚ) (p q : Pt) (ps : List Pt) (s : ViewerState) :
    ((panTool ⟨EventKind.move, p⟩ { s with panning := ⟨true, x0, y0⟩ }).rois =
        s.rois.map (fun r => moveBy r (p.x - x0) (p.y - y0)) ∧
      (panTool ⟨EventKind.move, p⟩ { s with panning := ⟨true, x0, y0⟩ }).pixMapPos =
        ptAdd s.pixMapPos ⟨p.x - x0, p.y - y0⟩ ∧
      (panTool ⟨EventKind.move, p⟩ { s with panning := ⟨true, x0, y0⟩ }).textGroupPos =
        ptAdd s.textGroupPos ⟨p.x - x0, p.y - y0⟩ ∧
      (panTool ⟨EventKind.move, p⟩ { s with panning := ⟨true, x0, y0⟩ }).panning =
        ⟨true, p.x, p.y⟩) ∧
    ((panMoves ps { s with panning := ⟨true, x0, y0⟩ }).rois =
        s.rois.map (fun r =>
          moveBy r (sumPt (panDeltas ⟨x0, y0⟩ ps)).x (sumPt (panDeltas ⟨x0, y0⟩ ps)).y) ∧
      (panMoves ps { s with panning := ⟨true, x0, y0⟩ }).pixMapPos =
        ptAdd s.pixMapPos (sumPt (panDeltas ⟨x0, y0⟩ ps)) ∧
      (panMoves ps { s with panning := ⟨true, x0, y0⟩ }).textGroupPos =
        ptAdd s.textGroupPos (sumPt (panDeltas ⟨x0, y0⟩ ps))) ∧
    (panTool ⟨EventKind.release, q⟩ { s with panning := ⟨true, x0, y0⟩ }).panning =
      ⟨false, 0, 0⟩ := by
  have hchar := pan_moves_char ps ⟨x0, y0⟩ { s with panning := ⟨true, x0, y0⟩ } rfl
  refine ⟨?_, ⟨hchar.1, hchar.2.1, hchar.2.2.1⟩, rfl⟩
  refine ⟨?_, ?_, ?_, ?_⟩ <;> simp [panTool, ptAdd, moveBy]

/-- Claim C6: during a draw gesture every move event — after any
sequence of earlier moves — sets the drawn shape's bounds to the
min-anchored, absolute-extent span between the press point and the
current point (so width and height are never negative at any step), and
a press-and-release at the same point leaves a persisted zero-size shape
at that point — the live set grows by one and the shape is not discarded
on release. -/
theorem c6_draw_gesture (t : RoiType) (pp cur : Pt) (ms : List Pt) (s : ViewerState) :
    ((draw_roi t ⟨EventKind.move, cur⟩
          (drawMoves t ms (draw_roi t ⟨EventKind.press, pp⟩ s))).rois[s.rois.length]?).map
        (fun r => itemSceneRect r) =
      some ⟨min pp.x cur.x, min pp.y cur.y, |cur.x - pp.x|, |cur.y - pp.y|⟩ ∧
    (0 : ℚ) ≤ |cur.x - pp.x| ∧ (0 : ℚ) ≤ |cur.y - pp.y| ∧
    (draw_roi t ⟨EventKind.release, pp⟩ (draw_roi t ⟨EventKind.press, pp⟩ s)).rois.length =
      s.rois.length + 1 ∧
    ((draw_roi t ⟨EventKind.release, pp⟩
          (draw_roi t ⟨EventKind.press, pp⟩ s)).rois[s.rois.length]?).map
        (fun r => itemSceneRect r) = some ⟨pp.x, pp.y, 0, 0⟩ ∧
    (draw_roi t ⟨EventKind.release, pp⟩ (draw_roi t ⟨EventKind.press, pp⟩ s)).drawing.flag =
      false := by
  obtain ⟨r', hrois, hpos, hidx, hdraw⟩ :=
    draw_moves_char t ms (draw_roi t ⟨EventKind.press, pp⟩ s) s.rois
      (set_mutable false (mkRoiItem t pp.x pp.y 0 0)) pp.x pp.y
      (by simp [draw_roi, add_roi]) (by simp [draw_roi, add_roi])
      (by simp [draw_roi, add_roi])
  refine ⟨?_, abs_nonneg _, abs_nonneg _, ?_, ?_, rfl⟩
  · set s2 := drawMoves t ms (draw_roi t ⟨EventKind.press, pp⟩ s)
    have hflag : s2.drawing.flag = true := by rw [hdraw]
    have hx : s2.drawing.x = pp.x := by rw [hdraw]
    have hy : s2.drawing.y = pp.y := by rw [hdraw]
    have hp0 : r'.pos = ⟨0, 0⟩ := by
      rw [hpos]
      rfl
    have hstep : draw_roi t ⟨EventKind.move, cur⟩ s2 =
        { s2 with rois := s.rois ++ [{ r' with rect :=
            ⟨if cur.x > pp.x then pp.x else cur.x, if cur.y > pp.y then pp.y else cur.y,
              |cur.x - pp.x|, |cur.y - pp.y|⟩ }] } := by
      simp [draw_roi, hflag, hx, hy, hidx, hrois, updateAt_length_append]
    rw [hstep]
    simp [List.getElem?_concat_length, itemSceneRect, Rect.translate, hp0, if_gt_eq_min]
  · simp [draw_roi, add_roi]
  · simp [draw_roi, add_roi, List.getElem?_concat_length, itemSceneRect, mkRoiItem,
      set_mutable, Rect.translate]

/-- Counterexample to C3 as stated: duplicating the selected shape
`(0,0,10,10)` and dragging by `(5,5)` leaves the original at
`(0,0,10,10)` but puts the copy at `(1,1,10,10)`, not the claimed
`(5,5,10,10)` — the copy is anchored at the handle-adjusted
`sceneBoundingRect` origin, 4 units up-left of the shape's bounds. -/
theorem c3_counterexample :
    (duplicateGesture ⟨5, 5⟩ 5 5 ⟨10, 10⟩ { baseViewer with rois := [c3Roi] }).rois.map
        itemSceneRect = [⟨0, 0, 10, 10⟩, ⟨1, 1, 10, 10⟩] ∧
    (⟨1, 1, 10, 10⟩ : Rect) ≠ ⟨5, 5, 10, 10⟩ := by
  constructor
  · norm_num [duplicateGesture, arrowTool, dragSelectedBy, duplicate_roi, deselectHide,
      set_show_handle, setSelected, mkRoiItem, set_mutable, sceneBoundingRect, boundingRect,
      boundingRectOf, Rect.adjusted, Rect.translate, itemSceneRect, moveBy, baseViewer, c3Roi]
  · intro hc
    rw [Rect.mk.injEq] at hc
    norm_num at hc

/-- Claim C3 as amended: a duplicate gesture (Control-press, drag by
`(dx,dy)`, release) on a scene whose single shape of bounds `(x,y,w,h)`
is selected leaves the original's bounds unchanged, adds exactly one new
shape of the same kind, and empties the duplicate buffer on release — but
the new shape's bounds are `(x-4+dx, y-4+dy, w, h)`: the copy is anchored
at the original's `sceneBoundingRect` origin, offset by
`-(handleSize + handleSpace) = -4` per axis, rather than at the
original's bounds origin. -/
theorem c3_duplicate_drag (t : RoiType) (x y w h dx dy : ℚ) (p q : Pt) (s : ViewerState) :
    (duplicateGesture p dx dy q
        { s with
          rois := [setSelected true (mkRoiItem t x y w h)]
          duplicated := []
          selecting := { s.selecting with flag := false } }).rois.map itemSceneRect =
      [⟨x, y, w, h⟩, ⟨x - 4 + dx, y - 4 + dy, w, h⟩] ∧
    (duplicateGesture p dx dy q
        { s with
          rois := [setSelected true (mkRoiItem t x y w h)]
          duplicated := []
          selecting := { s.selecting with flag := false } }).rois.map
        (fun r => r.roi_type) = [t, t] ∧
    (duplicateGesture p dx dy q
        { s with
          rois := [setSelected true (mkRoiItem t x y w h)]
          duplicated := []
          selecting := { s.selecting with flag := false } }).rois.length = 2 ∧
    (duplicateGesture p dx dy q
        { s with
          rois := [setSelected true (mkRoiItem t x y w h)]
          duplicated := []
          selecting := { s.selecting with flag := false } }).duplicated = [] := by
  refine ⟨?_, ?_, ?_, ?_⟩
  all_goals simp [duplicateGesture, arrowTool, dragSelectedBy, duplicate_roi, deselectHide,
    set_show_handle, setSelected, mkRoiItem, set_mutable, sceneBoundingRect, boundingRect,
    boundingRectOf, Rect.adjusted, Rect.translate, itemSceneRect, moveBy]
  all_goals ring_nf
  all_goals simp

/-- Claim C9: `zoom_fit` restores the identity view transform (scale 1,
zero translation) and re-anchors the pixmap and text layers at the
origin, while the live shape list (bounds, positions and selection
states), the duplicate buffer and every transient gesture record are left
unchanged. -/
theorem c9_zoom_fit (s : ViewerState) :
    (zoom_fit s).viewScale = 1 ∧
    (zoom_fit s).viewTranslate = ⟨0, 0⟩ ∧
    (zoom_fit s).pixMapPos = ⟨0, 0⟩ ∧
    (zoom_fit s).textGroupPos = ⟨0, 0⟩ ∧
    (zoom_fit s).rois = s.rois ∧
    (zoom_fit s).duplicated = s.duplicated ∧
    (zoom_fit s).panning = s.panning ∧
    (zoom_fit s).drawing = s.drawing ∧
    (zoom_fit s).selecting = s.selecting ∧
    (zoom_fit s).drawingRoi = s.drawingRoi :=
  ⟨rfl, rfl, rfl, rfl, rfl, rfl, rfl, rfl, rfl, rfl⟩

/-- Counterexample to C10 as stated: `is_overlap` does NOT always return
false when an argument has non-positive extent — the zero-size rect
`(0,0,0,0)` (width `0 ≤ 0`) strictly inside `(-1,-1,2,2)` overlaps it. -/
theorem c10_counterexample :
    is_overlap ⟨0, 0, 0, 0⟩ ⟨-1, -1, 2, 2⟩ = true := by
  norm_num [is_overlap]

/-- Claim C10 as amended: a zero-size rect used as the second argument of
`is_overlap` registers exactly when its anchor point lies strictly inside
the first rect's interior (a point exactly on an edge misses), and two
zero-size rects never overlap; but a rect of non-positive extent can
still overlap a fat rect, and because the arrow tool hit-tests clicks
against the handle-adjusted `sceneBoundingRect` (the rect grown by
`handleSize + handleSpace = 4`), a persisted zero-size ROI is hit by a
click at its own anchor point. -/
theorem c10_zero_size_overlap (b : Rect) (p : Pt) (x y : ℚ) :
    (is_overlap b ⟨p.x, p.y, 0, 0⟩ = true ↔
      (b.x < p.x ∧ p.x < b.x + b.w ∧ b.y < p.y ∧ p.y < b.y + b.h)) ∧
    is_overlap ⟨x, y, 0, 0⟩ ⟨p.x, p.y, 0, 0⟩ = false ∧
    is_overlap (sceneBoundingRect (mkRoiItem RoiType.rect x y 0 0)) ⟨x, y, 0, 0⟩ = true := by
  refine ⟨?_, ?_, ?_⟩
  · rw [is_overlap_iff]
    dsimp only
    constructor
    · rintro ⟨h1, h2, h3, h4⟩
      exact ⟨by linarith, by linarith, by linarith, by linarith⟩
    · rintro ⟨h1, h2, h3, h4⟩
      exact ⟨by linarith, by linarith, by linarith, by linarith⟩
  · rw [Bool.eq_false_iff]
    intro hc
    rw [is_overlap_iff] at hc
    dsimp only at hc
    obtain ⟨h1, h2, -, -⟩ := hc
    linarith
  · rw [is_overlap_iff]
    simp only [sceneBoundingRect, boundingRect, mkRoiItem, set_mutable, boundingRectOf,
      Rect.adjusted, Rect.translate]
    refine ⟨by linarith, by linarith, by linarith, by linarith⟩

end ImageViewer
